import Mathlib

/-!
Verification of the ferrule Zed extension (src/tooling/zed/src/lib.rs).

The extension exposes a single entry point, `language_server_command`,
which maps a language-server identifier to a launch command or fails
with an error string.  The extension state (`FerruleExtension`) is a
unit struct; the worktree handle is accepted but never inspected, so it
is modelled as a value of an arbitrary type `W`.  The Rust method takes
`&mut self`, so the embedding threads the state explicitly and returns
the (possibly updated) state together with the result.
-/

/-- Model of the Rust unit struct `FerruleExtension`. -/
structure FerruleExtension where
  deriving DecidableEq, Repr

/-- Model of `FerruleExtension::new`, which returns the unit value. -/
def FerruleExtension.new : FerruleExtension := {}

/-- Model of `zed_extension_api::Command`: program, arguments, and
environment overrides (a list of key/value pairs, empty by default). -/
structure Command where
  command : String
  args : List String
  env : List (String × String)
  deriving DecidableEq, Repr

/-- Model of `FerruleExtension::language_server_command`.  Compares the
identifier against the single supported token and either returns the
fixed launch command or an error string built from the identifier.  The
first component of the result is the extension state after the call
(the Rust method takes `&mut self` but never mutates it). -/
def language_server_command {W : Type} (s : FerruleExtension)
    (language_server_id : String) (_worktree : W) :
    FerruleExtension × Except String Command :=
  if language_server_id = "ferrule-lsp" then
    (s, Except.ok { command := "ferrule-lsp", args := [], env := [] })
  else
    (s, Except.error ("unknown language server: " ++ language_server_id))

/-- Claim C1: for the supported identifier and every project context,
`language_server_command` returns a launch specification whose program
is the non-empty string "ferrule-lsp", whose argument list is empty,
and whose environment-override mapping is empty. -/
theorem resolve_supported_ok {W : Type} (s : FerruleExtension) (wt : W) :
    ∃ c : Command,
      (language_server_command s "ferrule-lsp" wt).2 = Except.ok c ∧
      c.command = "ferrule-lsp" ∧ c.command ≠ "" ∧
      c.args = [] ∧ c.env = [] := by
  refine ⟨{ command := "ferrule-lsp", args := [], env := [] }, ?_, rfl, ?_, rfl, rfl⟩
  · rfl
  · decide

/-- Claim C2: for every identifier other than "ferrule-lsp" and every
project context, `language_server_command` fails with an error message
that contains the identifier verbatim (it is the fixed prefix followed
by the identifier). -/
theorem resolve_unknown_err (idf : String) (h : idf ≠ "ferrule-lsp")
    {W : Type} (s : FerruleExtension) (wt : W) :
    ∃ msg : String,
      (language_server_command s idf wt).2 = Except.error msg ∧
      ∃ pre suf : String, msg = pre ++ idf ++ suf := by
  refine ⟨"unknown language server: " ++ idf, ?_, "unknown language server: ", "", ?_⟩
  · simp [language_server_command, h]
  · simp

/-- Witness for claim C2: the identifier "clangd" is rejected with an
error whose message carries "clangd". -/
theorem resolve_unknown_err_witness :
    ∃ msg : String,
      (language_server_command FerruleExtension.new "clangd" ()).2 = Except.error msg ∧
      ∃ pre suf : String, msg = pre ++ "clangd" ++ suf :=
  resolve_unknown_err "clangd" (by decide) FerruleExtension.new ()

/-- Claim C3: `language_server_command` is total: for every identifier
and project context it yields exactly one of two outcomes, succeeding
if and only if the identifier is "ferrule-lsp" and failing with an
error otherwise. -/
theorem resolve_total {W : Type} (s : FerruleExtension) (idf : String) (wt : W) :
    ((∃ c, (language_server_command s idf wt).2 = Except.ok c) ↔ idf = "ferrule-lsp") ∧
    ((∃ e, (language_server_command s idf wt).2 = Except.error e) ↔ idf ≠ "ferrule-lsp") := by
  unfold language_server_command
  by_cases h : idf = "ferrule-lsp" <;> simp [h]

/-- Claim C4: the result of `language_server_command` does not depend on
the project-context argument: any two contexts (even of different
types) give structurally identical results. -/
theorem resolve_context_independent {W₁ W₂ : Type} (s : FerruleExtension)
    (idf : String) (w₁ : W₁) (w₂ : W₂) :
    language_server_command s idf w₁ = language_server_command s idf w₂ := rfl

/-- Claim C5: `language_server_command` is deterministic and idempotent:
calling it a second time with the same identifier and context, on the
state produced by the first call, yields the same result as the first
call. -/
theorem resolve_idempotent {W : Type} (s : FerruleExtension) (idf : String) (wt : W) :
    (language_server_command (language_server_command s idf wt).1 idf wt).2 =
      (language_server_command s idf wt).2 := by
  unfold language_server_command
  by_cases h : idf = "ferrule-lsp" <;> simp [h]

/-- Claim C6: the empty-string identifier is treated as unknown: for
every project context, `language_server_command` applied to "" fails
with the unknown-server error recording the empty identifier. -/
theorem resolve_empty_unknown {W : Type} (s : FerruleExtension) (wt : W) :
    (language_server_command s "" wt).2 =
      Except.error ("unknown language server: " ++ "") := rfl

/-- Claim C7: the calls with identifiers "ferrule-lsp" and
"rust-analyzer" are independent: in either order on the same extension
instance, the former returns the Scenario-1 command and the latter
fails with an error carrying "rust-analyzer", each result unaffected by
the other call. -/
theorem resolve_calls_independent {W : Type} (s : FerruleExtension) (wt : W) :
    (language_server_command s "ferrule-lsp" wt).2 =
      Except.ok { command := "ferrule-lsp", args := [], env := [] } ∧
    (language_server_command s "rust-analyzer" wt).2 =
      Except.error ("unknown language server: " ++ "rust-analyzer") ∧
    (language_server_command
        (language_server_command s "ferrule-lsp" wt).1 "rust-analyzer" wt).2 =
      (language_server_command s "rust-analyzer" wt).2 ∧
    (language_server_command
        (language_server_command s "rust-analyzer" wt).1 "ferrule-lsp" wt).2 =
      (language_server_command s "ferrule-lsp" wt).2 :=
  ⟨rfl, rfl, rfl, rfl⟩

/-- Claim C8: for every unsupported identifier, the error message is
exactly "unknown language server: " immediately followed by the
identifier, and nothing else. -/
theorem resolve_err_message_exact (idf : String) (h : idf ≠ "ferrule-lsp")
    {W : Type} (s : FerruleExtension) (wt : W) :
    (language_server_command s idf wt).2 =
      Except.error ("unknown language server: " ++ idf) := by
  simp [language_server_command, h]

/-- Witness for claim C8: the identifier "pyright" produces exactly the
message "unknown language server: pyright". -/
theorem resolve_err_message_exact_witness :
    (language_server_command FerruleExtension.new "pyright" ()).2 =
      Except.error ("unknown language server: " ++ "pyright") :=
  resolve_err_message_exact "pyright" (by decide) FerruleExtension.new ()

/-- Claim C9: identifier matching is exact, byte-for-byte string
equality: every identifier different from "ferrule-lsp", including
case variants and whitespace-padded variants, is rejected with the
unknown-server error. -/
theorem resolve_match_exact (idf : String) (h : idf ≠ "ferrule-lsp")
    {W : Type} (s : FerruleExtension) (wt : W) :
    ∃ e, (language_server_command s idf wt).2 = Except.error e := by
  exact ⟨"unknown language server: " ++ idf, by simp [language_server_command, h]⟩

/-- Witness for claim C9: the case variant "Ferrule-LSP" and the
whitespace-padded "ferrule-lsp " are both rejected. -/
theorem resolve_match_exact_witness :
    (∃ e, (language_server_command FerruleExtension.new "Ferrule-LSP" ()).2 =
      Except.error e) ∧
    (∃ e, (language_server_command FerruleExtension.new "ferrule-lsp " ()).2 =
      Except.error e) :=
  ⟨resolve_match_exact "Ferrule-LSP" (by decide) FerruleExtension.new (),
   resolve_match_exact "ferrule-lsp " (by decide) FerruleExtension.new ()⟩

/-- Claim C10: every call leaves the extension state unchanged, and the
state type carries no data: its only value is the one produced by
`FerruleExtension.new`. -/
theorem resolve_state_unchanged {W : Type} (s : FerruleExtension)
    (idf : String) (wt : W) :
    (language_server_command s idf wt).1 = s ∧
    (∀ t : FerruleExtension, t = FerruleExtension.new) := by
  constructor
  · unfold language_server_command
    by_cases h : idf = "ferrule-lsp" <;> simp [h]
  · intro t
    cases t
    rfl
